import Mathlib

/-!
Shallow embedding of the `salt-saphana` repository's two modules:

* `salt/modules/crmshmod.py` — a wrapper that builds shell command strings
  for the crm / ha-cluster command line tools and hands them to the host
  execution facility (`__salt__['cmd.retcode']`).  The embedding makes each
  Python function return the exact command string it would execute; the
  public dispatchers (`cluster_init`, `cluster_join`) additionally record
  the warning message they log, in a `CmdResult` record.  Raising
  `SaltInvocationError` is modelled by `Except.error` carrying the message,
  returned before any command string is produced.

* `salt/states/saputilsmod.py` — the SAP archive extraction state.  The
  external delegate `__salt__['saputils.extract_sapcar_file']` is an input
  of the embedding: a function of the four forwarded parameters whose
  result is `Except.ok ()` on success and `Except.error msg` when it raises
  `CommandExecutionError msg`.  `__opts__['test']` is the `test` input.

Python truthiness of optional string parameters (`if watchdog:` is false
for both `None` and `''`) is modelled by `strTruthy` on `Option String`;
parameters only ever used as boolean switches are modelled as `Bool`.
-/

/-- Python truthiness of an optional string: `None` and `''` are falsy. -/
def strTruthy : Option String → Bool
  | none => false
  | some s => s ≠ ""

/-- Python `str` of an optional value, for interpolation sites that are
only reached when the value is truthy. -/
def optStr (v : Option String) : String := v.getD ""

/-! ### Generic string observations used by the claims

Tokenisation on single spaces and substring occurrence, defined by
structural recursion on character lists so that concrete instances reduce
in the kernel. -/

/-- Split a character list at spaces, accumulating the current token. -/
def splitTok (acc : List Char) : List Char → List (List Char)
  | [] => [acc.reverse]
  | c :: cs => if c = ' ' then acc.reverse :: splitTok [] cs else splitTok (c :: acc) cs

/-- The whitespace-separated tokens of a command string. -/
def tokens (s : String) : List String :=
  (splitTok [] s.toList).map (fun cs => String.mk cs)

/-- Whether `pat` occurs at the head of `l`. -/
def isLeadOf : List Char → List Char → Bool
  | [], _ => true
  | _, [] => false
  | a :: as, b :: bs => a = b && isLeadOf as bs

/-- Whether `pat` occurs contiguously anywhere in `l`. -/
def hasRun (pat : List Char) : List Char → Bool
  | [] => isLeadOf pat []
  | c :: cs => isLeadOf pat (c :: cs) || hasRun pat cs

/-- Whether `pat` occurs as a contiguous substring of `s`. -/
def containsSub (s pat : String) : Bool := hasRun pat.toList s.toList

/-! ### crmshmod.py constants -/

def CRM_COMMAND : String := "/usr/sbin/crm"
def HA_INIT_COMMAND : String := "/usr/sbin/ha-cluster-init"
def HA_JOIN_COMMAND : String := "/usr/sbin/ha-cluster-join"

/-- Result of a public crmshmod operation: the command string handed to the
host execution facility, together with the warning message logged by
`LOGGER.warn`, if any. -/
structure CmdResult where
  cmd : String
  warning : Option String
deriving DecidableEq, Repr

/-! ### crmshmod.py command builders -/

/-- Embedding of `wait_for_startup`'s `timeout` argument: the Python value
may be absent (`None`), an `int`, or a non-`int` (modelled by `str`, the
case exercised by the spec). -/
inductive PyTimeout where
  | none
  | int (n : Int)
  | str (s : String)
deriving DecidableEq, Repr

/-- Python truthiness of the `timeout` value. -/
def PyTimeout.truthy : PyTimeout → Bool
  | .none => false
  | .int n => n ≠ 0
  | .str s => s ≠ ""

/-- Python `isinstance(timeout, int)`. -/
def PyTimeout.isInt : PyTimeout → Bool
  | .int _ => true
  | _ => false

/-- Embedding of `wait_for_startup` (crmshmod.py lines 160-182).
`Except.error msg` models `raise exceptions.SaltInvocationError(msg)`,
which happens before any command is executed; `Except.ok cmd` models
executing `cmd`. -/
def wait_for_startup (timeout : PyTimeout) : Except String String :=
  let cmd := CRM_COMMAND ++ " cluster wait_for_startup"
  if timeout.truthy then
    match timeout with
    | .int n => Except.ok (cmd ++ " " ++ toString n)
    | _ => Except.error "timeout must be integer type"
  else
    Except.ok cmd

/-- Embedding of `_crm_init` (crmshmod.py lines 185-214): the command string
built for the new-generation tool. -/
def _crm_init (name : String) (watchdog interface : Option String)
    (unicast : Bool) (admin_ip : Option String) (sbd : Bool)
    (sbd_dev : Option String) (quiet : Bool) : String :=
  let cmd := CRM_COMMAND ++ " cluster init -y -n " ++ name
  let cmd := if strTruthy watchdog then cmd ++ " -w " ++ optStr watchdog else cmd
  let cmd := if strTruthy interface then cmd ++ " -i " ++ optStr interface else cmd
  let cmd := if unicast then cmd ++ " -u" else cmd
  let cmd := if strTruthy admin_ip then cmd ++ " -A " ++ optStr admin_ip else cmd
  let cmd := if sbd then
      (let cmd := cmd ++ " --enable-sbd"
       if strTruthy sbd_dev then cmd ++ " -s " ++ optStr sbd_dev else cmd)
    else cmd
  if quiet then cmd ++ " -q" else cmd

/-- Embedding of `_ha_cluster_init` (crmshmod.py lines 217-242): the command
string built for the legacy tool; it takes neither `name` nor `watchdog`. -/
def _ha_cluster_init (interface : Option String) (unicast : Bool)
    (admin_ip : Option String) (sbd : Bool) (sbd_dev : Option String)
    (quiet : Bool) : String :=
  let cmd := HA_INIT_COMMAND ++ " -y"
  let cmd := if strTruthy interface then cmd ++ " -i " ++ optStr interface else cmd
  let cmd := if unicast then cmd ++ " -u" else cmd
  let cmd := if strTruthy admin_ip then cmd ++ " -A " ++ optStr admin_ip else cmd
  let cmd := if sbd then
      (let cmd := cmd ++ " -S"
       if strTruthy sbd_dev then cmd ++ " -s " ++ optStr sbd_dev else cmd)
    else cmd
  if quiet then cmd ++ " -q" else cmd

/-- Embedding of `cluster_init` (crmshmod.py lines 245-291).  `use_crm` is
the process-lifetime generation flag `__salt__['crmsh.version']`. -/
def cluster_init (use_crm : Bool) (name : String)
    (watchdog interface : Option String) (unicast : Bool)
    (admin_ip : Option String) (sbd : Bool) (sbd_dev : Option String)
    (quiet : Bool) : CmdResult :=
  if use_crm then
    { cmd := _crm_init name watchdog interface unicast admin_ip sbd sbd_dev quiet
      warning := none }
  else
    { cmd := _ha_cluster_init interface unicast admin_ip sbd sbd_dev quiet
      warning := some "The parameters name and watchdog are not considered!" }

/-- Embedding of `_crm_join` (crmshmod.py lines 294-311). -/
def _crm_join (host : String) (watchdog interface : Option String)
    (quiet : Bool) : String :=
  let cmd := CRM_COMMAND ++ " cluster join -y -c " ++ host
  let cmd := if strTruthy watchdog then cmd ++ " -w " ++ optStr watchdog else cmd
  let cmd := if strTruthy interface then cmd ++ " -i " ++ optStr interface else cmd
  if quiet then cmd ++ " -q" else cmd

/-- Embedding of `_ha_cluster_join` (crmshmod.py lines 314-328): the legacy
join builder takes no `watchdog`. -/
def _ha_cluster_join (host : String) (interface : Option String)
    (quiet : Bool) : String :=
  let cmd := HA_JOIN_COMMAND ++ " -y -c " ++ host
  let cmd := if strTruthy interface then cmd ++ " -i " ++ optStr interface else cmd
  if quiet then cmd ++ " -q" else cmd

/-- Embedding of `cluster_join` (crmshmod.py lines 331-364). -/
def cluster_join (use_crm : Bool) (host : String)
    (watchdog interface : Option String) (quiet : Bool) : CmdResult :=
  if use_crm then
    { cmd := _crm_join host watchdog interface quiet
      warning := none }
  else
    { cmd := _ha_cluster_join host interface quiet
      warning := some "The parameter watchdog is not considered!" }

/-- Embedding of `configure_load` (crmshmod.py lines 397-427). -/
def configure_load (method url : String) (is_xml : Bool) : String :=
  CRM_COMMAND ++ " configure load " ++ (if is_xml then "xml " else "")
    ++ method ++ " " ++ url

/-! ### Spec-side view of the new-generation init builder

For the refinement claim about flag order, `crm_init_spec_order` is written
from the spec's words: the base command followed by each optional fragment
in the fixed order watchdog, interface, unicast, admin-ip, sbd(+device),
quiet, each fragment empty when its argument is falsy. -/

/-- A valued flag fragment: the flag text followed by the value when the
value is truthy, empty otherwise. -/
def flagValued (frag : String) (v : Option String) : String :=
  if strTruthy v then frag ++ optStr v else ""

/-- A boolean flag fragment: the flag text when enabled, empty otherwise. -/
def flagBool (frag : String) (b : Bool) : String :=
  if b then frag else ""

/-- The new-generation init command as the spec describes it: fixed flag
order watchdog (`-w`), interface (`-i`), unicast (`-u`), admin ip (`-A`),
sbd (`--enable-sbd`, with `-s <device>` only inside the sbd fragment),
quiet (`-q`); falsy flags omitted. -/
def crm_init_spec_order (name : String) (watchdog interface : Option String)
    (unicast : Bool) (admin_ip : Option String) (sbd : Bool)
    (sbd_dev : Option String) (quiet : Bool) : String :=
  CRM_COMMAND ++ " cluster init -y -n " ++ name
    ++ flagValued " -w " watchdog
    ++ flagValued " -i " interface
    ++ flagBool " -u" unicast
    ++ flagValued " -A " admin_ip
    ++ (if sbd then " --enable-sbd" ++ flagValued " -s " sbd_dev else "")
    ++ flagBool " -q" quiet

/-! ### saputilsmod.py -/

/-- Embedding of Python `os.path.dirname` for POSIX paths: the part of the
path before its final slash, with trailing slashes stripped unless the
head consists only of slashes. -/
def dirname (p : String) : String :=
  let cs := p.toList
  let i := cs.length - (cs.reverse.takeWhile (· ≠ '/')).length
  let head := cs.take i
  if head ≠ [] ∧ ¬ head.all (· = '/') then
    String.mk (head.reverse.dropWhile (· = '/')).reverse
  else
    String.mk head

/-- The declarative-state result record `{name, changes, result, comment}`.
`result` is `some true` / `some false` / `none` for Python
`True` / `False` / `None`; `changes` maps keys to Python values that may
themselves be `None`. -/
structure StateRet where
  name : String
  changes : List (String × Option String)
  result : Option Bool
  comment : String
deriving DecidableEq, Repr

/-- Embedding of `sar_file_extracted` (saputilsmod.py lines 54-102).
`test` is `__opts__['test']`; `extract_sapcar_file` is the delegate
`__salt__['saputils.extract_sapcar_file']`, applied to the four forwarded
parameters, with `Except.error msg` modelling a raised
`CommandExecutionError` whose stringified text is `msg`. -/
def sar_file_extracted (test : Bool)
    (extract_sapcar_file : String → String → Option String → Option String → Except String Unit)
    (name sapcar_exe sar_file : String)
    (output_dir options : Option String) : StateRet :=
  let ret : StateRet := { name := sar_file, changes := [], result := some false, comment := "" }
  if test then
    { ret with
      result := none
      comment := sar_file ++ " would be extracted"
      changes := [("output_dir", output_dir)] }
  else
    match extract_sapcar_file sapcar_exe sar_file output_dir options with
    | Except.ok _ =>
      { ret with
        changes := [("output_dir",
          if strTruthy output_dir then output_dir else some (dirname sar_file))]
        comment := sar_file ++ " file extracted"
        result := some true }
    | Except.error err =>
      { ret with comment := err }

/-! ### Sanity checks on concrete inputs -/

example : _crm_init "x" none none false none false none false
    = "/usr/sbin/crm cluster init -y -n x" := by decide

example : _ha_cluster_init none false none true (some "/dev/sda") true
    = "/usr/sbin/ha-cluster-init -y -S -s /dev/sda -q" := by decide

example : wait_for_startup (.int 30)
    = .ok "/usr/sbin/crm cluster wait_for_startup 30" := rfl

example : configure_load "update" "file.conf" true
    = "/usr/sbin/crm configure load xml update file.conf" := by decide

example : dirname "home/sapuser/saprouter.sar" = "home/sapuser" := by decide

example : dirname "file.sar" = "" := by decide

example : dirname "/a.sar" = "/" := by decide

example : sar_file_extracted false (fun _ _ _ _ => .ok ()) "n" "./SAPCAR.exe"
    "home/sapuser/saprouter.sar" none none
    = { name := "home/sapuser/saprouter.sar"
        changes := [("output_dir", some "home/sapuser")]
        result := some true
        comment := "home/sapuser/saprouter.sar file extracted" } := by decide

/-! ### Helper lemmas shared by the claim theorems -/

/-- Conditionally appending a valued flag equals appending its fragment. -/
lemma append_if_valued (cmd frag : String) (v : Option String) :
    (if strTruthy v then cmd ++ frag ++ optStr v else cmd)
      = cmd ++ flagValued frag v := by
  unfold flagValued
  by_cases h : strTruthy v
  · rw [if_pos h, if_pos h, String.append_assoc]
  · rw [if_neg h, if_neg h, String.append_empty]

/-- Conditionally appending a boolean flag equals appending its fragment. -/
lemma append_if_bool (cmd frag : String) (b : Bool) :
    (if b then cmd ++ frag else cmd) = cmd ++ flagBool frag b := by
  unfold flagBool
  cases b
  · rw [if_neg (by simp), if_neg (by simp), String.append_empty]
  · rw [if_pos rfl, if_pos rfl]

/-- Conditionally appending the sbd fragment (enablement flag plus gated
device flag) equals appending its spec-side fragment. -/
lemma append_if_sbd (cmd enable : String) (s : Bool) (d : Option String) :
    (if s then
       (let c := cmd ++ enable
        if strTruthy d then c ++ " -s " ++ optStr d else c)
     else cmd)
      = cmd ++ (if s then enable ++ flagValued " -s " d else "") := by
  cases s
  · rw [if_neg (by simp), if_neg (by simp), String.append_empty]
  · rw [if_pos rfl, if_pos rfl]
    show (if strTruthy d then (cmd ++ enable) ++ " -s " ++ optStr d else cmd ++ enable) = _
    rw [append_if_valued, String.append_assoc]

/-- The source's incremental builder `_crm_init` agrees with the spec-side
fixed-order concatenation `crm_init_spec_order` on every argument
combination. -/
lemma crm_init_eq_spec_order (name : String) (watchdog interface : Option String)
    (unicast : Bool) (admin_ip : Option String) (sbd : Bool)
    (sbd_dev : Option String) (quiet : Bool) :
    _crm_init name watchdog interface unicast admin_ip sbd sbd_dev quiet
      = crm_init_spec_order name watchdog interface unicast admin_ip sbd sbd_dev quiet := by
  show (if quiet then _ ++ " -q" else _) = _
  rw [append_if_bool, append_if_sbd, append_if_valued, append_if_bool,
    append_if_valued, append_if_valued]
  rfl

/-! ### Claim theorems -/

/-- C2: for every combination of the optional arguments, the new-generation
init builder `_crm_init` emits the flags in exactly the fixed order
watchdog (`-w`), interface (`-i`), unicast (`-u`, valueless),
admin ip (`-A`), sbd (`--enable-sbd`, followed by `-s <sbd_dev>` only when
sbd is enabled), quiet (`-q`), omitting every flag whose argument is falsy
or absent: it coincides with the spec-side fixed-order concatenation
`crm_init_spec_order`. -/
theorem crm_init_fixed_flag_order (name : String)
    (watchdog interface : Option String) (unicast : Bool)
    (admin_ip : Option String) (sbd : Bool) (sbd_dev : Option String)
    (quiet : Bool) :
    _crm_init name watchdog interface unicast admin_ip sbd sbd_dev quiet
      = crm_init_spec_order name watchdog interface unicast admin_ip sbd sbd_dev quiet :=
  crm_init_eq_spec_order name watchdog interface unicast admin_ip sbd sbd_dev quiet

/-- C3: on both the new-generation and the legacy init builders, the
`-s <sbd_dev>` token never appears unless `sbd` is truthy: with `sbd`
disabled the built command does not depend on `sbd_dev` at all, and even a
supplied device leaves no `-s` token in the command. -/
theorem sbd_dev_only_with_sbd (name : String)
    (watchdog interface admin_ip sbd_dev : Option String)
    (unicast quiet : Bool) :
    _crm_init name watchdog interface unicast admin_ip false sbd_dev quiet
      = _crm_init name watchdog interface unicast admin_ip false none quiet
  ∧ _ha_cluster_init interface unicast admin_ip false sbd_dev quiet
      = _ha_cluster_init interface unicast admin_ip false none quiet
  ∧ "-s" ∉ tokens (_crm_init "x" none none false none false (some "/dev/sda") false)
  ∧ "-s" ∉ tokens (_ha_cluster_init none false none false (some "/dev/sda") false) := by
  refine ⟨?_, ?_, by decide, by decide⟩
  · simp [_crm_init]
  · simp [_ha_cluster_init]

/-- C6: `configure_load` builds `configure load xml <method> <url>` (with
the `xml ` token and its single trailing space) exactly when `is_xml` is
truthy, and `configure load <method> <url>` with no xml token otherwise,
with `method` and `url` passed through uninterpreted. -/
theorem configure_load_xml_token (method url : String) :
    configure_load method url true
      = CRM_COMMAND ++ " configure load xml " ++ method ++ " " ++ url
  ∧ configure_load method url false
      = CRM_COMMAND ++ " configure load " ++ method ++ " " ++ url := by
  constructor
  · show (CRM_COMMAND ++ " configure load " ++ "xml ") ++ method ++ " " ++ url = _
    rw [show CRM_COMMAND ++ " configure load " ++ "xml "
        = CRM_COMMAND ++ " configure load xml " from by decide]
  · show (CRM_COMMAND ++ " configure load " ++ "") ++ method ++ " " ++ url = _
    rw [String.append_empty]

/-- C7: when the extraction delegate raises a command-execution failure,
`sar_file_extracted` catches it (no exception escapes: the embedding is a
total function) and returns a record with result false, comment equal to
the stringified text of the raised error, and an empty changes mapping. -/
theorem sar_file_extracted_failure (e nm sapcar sar : String)
    (od opts : Option String) :
    sar_file_extracted false (fun _ _ _ _ => Except.error e) nm sapcar sar od opts
      = { name := sar, changes := [], result := some false, comment := e } := rfl

/-- C9: in dry-run (test) mode, `sar_file_extracted` never invokes the
extraction delegate (the result does not depend on it) and returns a
record with result `none` (unknown), a comment stating the file would be
extracted, and the intended output directory under `changes.output_dir`. -/
theorem sar_file_extracted_dry_run
    (f g : String → String → Option String → Option String → Except String Unit)
    (nm sapcar sar : String) (od opts : Option String) :
    sar_file_extracted true f nm sapcar sar od opts
      = sar_file_extracted true g nm sapcar sar od opts
  ∧ sar_file_extracted true f nm sapcar sar od opts
      = { name := sar, changes := [("output_dir", od)], result := none,
          comment := sar ++ " would be extracted" } := ⟨rfl, rfl⟩

/-- C10: in every branch (dry-run, success, failure), the record returned
by `sar_file_extracted` has its `name` field equal to `sar_file`, and the
`name` argument has no effect on the returned record. -/
theorem sar_file_extracted_name_field (test : Bool)
    (f : String → String → Option String → Option String → Except String Unit)
    (nm nm2 sapcar sar : String) (od opts : Option String) :
    (sar_file_extracted test f nm sapcar sar od opts).name = sar
  ∧ sar_file_extracted test f nm sapcar sar od opts
      = sar_file_extracted test f nm2 sapcar sar od opts := by
  refine ⟨?_, rfl⟩
  cases test
  · cases hf : f sapcar sar od opts <;> simp [sar_file_extracted, hf]
  · simp [sar_file_extracted]

/-- C1: with the generation flag true, `cluster_init` builds the new-tool
command: it delegates to `_crm_init`, the command extends
`crm cluster init -y -n <name>`, no warning is logged, and (on the spec's
example arguments) the legacy binary path never occurs in the command.
With the flag false, it delegates to the legacy `_ha_cluster_init` builder
(whose command starts from the legacy binary), logs the warning, the
result is independent of `name` and `watchdog`, and the built command
(with the remaining optional arguments at their defaults, as in the spec's
scenario) contains no `-n` flag and no `name` token. -/
theorem cluster_init_generation_dispatch (name : String)
    (watchdog interface admin_ip sbd_dev : Option String)
    (unicast sbd quiet : Bool)
    (h1 : name ≠ HA_INIT_COMMAND) (h2 : name ≠ "-y") :
    (cluster_init true name watchdog interface unicast admin_ip sbd sbd_dev quiet).cmd
      = _crm_init name watchdog interface unicast admin_ip sbd sbd_dev quiet
  ∧ (cluster_init true name watchdog interface unicast admin_ip sbd sbd_dev quiet).warning
      = none
  ∧ (∃ rest, (cluster_init true name watchdog interface unicast admin_ip sbd sbd_dev quiet).cmd
      = CRM_COMMAND ++ " cluster init -y -n " ++ name ++ rest)
  ∧ containsSub (cluster_init true "x" none none false none false none false).cmd
      HA_INIT_COMMAND = false
  ∧ (cluster_init false name watchdog interface unicast admin_ip sbd sbd_dev quiet).cmd
      = _ha_cluster_init interface unicast admin_ip sbd sbd_dev quiet
  ∧ (cluster_init false name watchdog interface unicast admin_ip sbd sbd_dev quiet).warning
      = some "The parameters name and watchdog are not considered!"
  ∧ (∀ name2 watchdog2,
      cluster_init false name2 watchdog2 interface unicast admin_ip sbd sbd_dev quiet
        = cluster_init false name watchdog interface unicast admin_ip sbd sbd_dev quiet)
  ∧ "-n" ∉ tokens (cluster_init false name watchdog none false none false none false).cmd
  ∧ name ∉ tokens (cluster_init false name watchdog none false none false none false).cmd := by
  have hc : (cluster_init false name watchdog none false none false none false).cmd
      = _ha_cluster_init none false none false none false := rfl
  have ht : tokens (_ha_cluster_init none false none false none false)
      = [HA_INIT_COMMAND, "-y"] := by decide
  refine ⟨rfl, rfl, ?_, by decide, rfl, rfl, fun _ _ => rfl, ?_, ?_⟩
  · refine ⟨flagValued " -w " watchdog ++ flagValued " -i " interface
      ++ flagBool " -u" unicast ++ flagValued " -A " admin_ip
      ++ (if sbd then " --enable-sbd" ++ flagValued " -s " sbd_dev else "")
      ++ flagBool " -q" quiet, ?_⟩
    show _crm_init name watchdog interface unicast admin_ip sbd sbd_dev quiet = _
    rw [crm_init_eq_spec_order]
    simp [crm_init_spec_order, String.append_assoc]
  · rw [hc, ht]
    decide
  · rw [hc, ht]
    simp [h1, h2]

/-- Witness for C1 at concrete arguments. -/
theorem cluster_init_generation_dispatch_witness :
    ("hacluster" : String) ≠ HA_INIT_COMMAND ∧ ("hacluster" : String) ≠ "-y"
  ∧ ((cluster_init true "hacluster" (some "/dev/wd") (some "eth0") true
        (some "10.0.0.1") true (some "/dev/sda") true).cmd
      = _crm_init "hacluster" (some "/dev/wd") (some "eth0") true
        (some "10.0.0.1") true (some "/dev/sda") true
  ∧ (cluster_init true "hacluster" (some "/dev/wd") (some "eth0") true
        (some "10.0.0.1") true (some "/dev/sda") true).warning = none
  ∧ (∃ rest, (cluster_init true "hacluster" (some "/dev/wd") (some "eth0") true
        (some "10.0.0.1") true (some "/dev/sda") true).cmd
      = CRM_COMMAND ++ " cluster init -y -n " ++ "hacluster" ++ rest)
  ∧ containsSub (cluster_init true "x" none none false none false none false).cmd
      HA_INIT_COMMAND = false
  ∧ (cluster_init false "hacluster" (some "/dev/wd") (some "eth0") true
        (some "10.0.0.1") true (some "/dev/sda") true).cmd
      = _ha_cluster_init (some "eth0") true (some "10.0.0.1") true (some "/dev/sda") true
  ∧ (cluster_init false "hacluster" (some "/dev/wd") (some "eth0") true
        (some "10.0.0.1") true (some "/dev/sda") true).warning
      = some "The parameters name and watchdog are not considered!"
  ∧ (∀ name2 watchdog2,
      cluster_init false name2 watchdog2 (some "eth0") true
        (some "10.0.0.1") true (some "/dev/sda") true
        = cluster_init false "hacluster" (some "/dev/wd") (some "eth0") true
            (some "10.0.0.1") true (some "/dev/sda") true)
  ∧ "-n" ∉ tokens (cluster_init false "hacluster" (some "/dev/wd") none false
        none false none false).cmd
  ∧ "hacluster" ∉ tokens (cluster_init false "hacluster" (some "/dev/wd") none false
        none false none false).cmd) :=
  ⟨by decide, by decide,
    cluster_init_generation_dispatch "hacluster" (some "/dev/wd") (some "eth0")
      (some "10.0.0.1") (some "/dev/sda") true true true (by decide) (by decide)⟩

/-- C4: with the generation flag false, `cluster_join` builds the legacy
`ha-cluster-join` command: it delegates to `_ha_cluster_join`, the result
does not depend on the supplied watchdog (which never appears in the
command, as checked on a concrete instance), and the warning is logged;
with the flag true, a truthy watchdog `wd` makes the command extend
`crm cluster join -y -c <host> -w <wd>`, and no warning is logged. -/
theorem cluster_join_watchdog_dispatch (host wd : String)
    (watchdog interface : Option String) (quiet : Bool) (hw : wd ≠ "") :
    (cluster_join false host watchdog interface quiet).cmd
      = _ha_cluster_join host interface quiet
  ∧ (∀ watchdog2, cluster_join false host watchdog2 interface quiet
      = cluster_join false host watchdog interface quiet)
  ∧ (cluster_join false host watchdog interface quiet).warning
      = some "The parameter watchdog is not considered!"
  ∧ containsSub (cluster_join false "node1" (some "/dev/watchdog") none false).cmd
      "/dev/watchdog" = false
  ∧ (∃ rest, (cluster_join true host (some wd) interface quiet).cmd
      = CRM_COMMAND ++ " cluster join -y -c " ++ host ++ " -w " ++ wd ++ rest)
  ∧ (cluster_join true host watchdog interface quiet).warning = none := by
  refine ⟨rfl, fun _ => rfl, rfl, by decide, ?_, rfl⟩
  refine ⟨flagValued " -i " interface ++ flagBool " -q" quiet, ?_⟩
  show _crm_join host (some wd) interface quiet = _
  show (if quiet then _ ++ " -q" else _) = _
  rw [append_if_bool, append_if_valued]
  simp [strTruthy, optStr, hw, String.append_assoc]

/-- Witness for C4 at concrete arguments. -/
theorem cluster_join_watchdog_dispatch_witness :
    ("/dev/wd" : String) ≠ ""
  ∧ ((cluster_join false "node1" (some "/dev/wd") (some "eth0") true).cmd
      = _ha_cluster_join "node1" (some "eth0") true
  ∧ (∀ watchdog2, cluster_join false "node1" watchdog2 (some "eth0") true
      = cluster_join false "node1" (some "/dev/wd") (some "eth0") true)
  ∧ (cluster_join false "node1" (some "/dev/wd") (some "eth0") true).warning
      = some "The parameter watchdog is not considered!"
  ∧ containsSub (cluster_join false "node1" (some "/dev/watchdog") none false).cmd
      "/dev/watchdog" = false
  ∧ (∃ rest, (cluster_join true "node1" (some "/dev/wd") (some "eth0") true).cmd
      = CRM_COMMAND ++ " cluster join -y -c " ++ "node1" ++ " -w " ++ "/dev/wd" ++ rest)
  ∧ (cluster_join true "node1" (some "/dev/wd") (some "eth0") true).warning = none) :=
  ⟨by decide,
    cluster_join_watchdog_dispatch "node1" "/dev/wd" (some "/dev/wd") (some "eth0")
      true (by decide)⟩

/-- C5 counterexample: `timeout=''` is a supplied non-integer timeout, yet
`wait_for_startup` raises no invocation error and executes the bare
command, because the truthiness test precedes the `isinstance` check. -/
theorem wait_for_startup_nonint_counterexample :
    (PyTimeout.str "").isInt = false
  ∧ wait_for_startup (PyTimeout.str "")
      = Except.ok "/usr/sbin/crm cluster wait_for_startup" := ⟨rfl, rfl⟩

/-- C5 (amended): `wait_for_startup(timeout=30)` executes a command ending
in the token `30`; every supplied timeout that is truthy (nonzero,
nonempty) and not an integer raises `SaltInvocationError` before any
command is executed; a falsy non-integer timeout is treated as absent. -/
theorem wait_for_startup_timeout_check (t : PyTimeout)
    (h1 : t.truthy = true) (h2 : t.isInt = false) :
    wait_for_startup t = Except.error "timeout must be integer type"
  ∧ wait_for_startup (PyTimeout.int 30)
      = Except.ok "/usr/sbin/crm cluster wait_for_startup 30"
  ∧ (tokens "/usr/sbin/crm cluster wait_for_startup 30").getLast? = some "30" := by
  refine ⟨?_, rfl, by decide⟩
  cases t with
  | none => simp [PyTimeout.truthy] at h1
  | int n => simp [PyTimeout.isInt] at h2
  | str s =>
    have hs : s ≠ "" := by simpa [PyTimeout.truthy] using h1
    simp [wait_for_startup, PyTimeout.truthy, hs]

/-- Witness for C5 (amended) at the spec's example `timeout='x'`. -/
theorem wait_for_startup_timeout_check_witness :
    (PyTimeout.str "x").truthy = true ∧ (PyTimeout.str "x").isInt = false
  ∧ (wait_for_startup (PyTimeout.str "x") = Except.error "timeout must be integer type"
  ∧ wait_for_startup (PyTimeout.int 30)
      = Except.ok "/usr/sbin/crm cluster wait_for_startup 30"
  ∧ (tokens "/usr/sbin/crm cluster wait_for_startup 30").getLast? = some "30") :=
  ⟨by decide, by decide,
    wait_for_startup_timeout_check (PyTimeout.str "x") (by decide) (by decide)⟩

/-- C8: when the extraction delegate succeeds, `sar_file_extracted`
returns result true, comment `<sar_file> file extracted`, and
`changes.output_dir` equal to the explicit `output_dir` when a truthy one
is given, else equal to the parent directory of `sar_file`. -/
theorem sar_file_extracted_success (nm sapcar sar d : String)
    (opts : Option String) (hd : d ≠ "") :
    sar_file_extracted false (fun _ _ _ _ => Except.ok ()) nm sapcar sar (some d) opts
      = { name := sar, changes := [("output_dir", some d)], result := some true,
          comment := sar ++ " file extracted" }
  ∧ sar_file_extracted false (fun _ _ _ _ => Except.ok ()) nm sapcar sar none opts
      = { name := sar, changes := [("output_dir", some (dirname sar))],
          result := some true, comment := sar ++ " file extracted" } := by
  constructor
  · simp [sar_file_extracted, strTruthy, hd]
  · rfl

/-- Witness for C8 at concrete arguments. -/
theorem sar_file_extracted_success_witness :
    ("out/dir" : String) ≠ ""
  ∧ (sar_file_extracted false (fun _ _ _ _ => Except.ok ()) "n" "./SAPCAR.exe"
        "home/sapuser/saprouter.sar" (some "out/dir") none
      = { name := "home/sapuser/saprouter.sar"
          changes := [("output_dir", some "out/dir")]
          result := some true
          comment := "home/sapuser/saprouter.sar" ++ " file extracted" }
  ∧ sar_file_extracted false (fun _ _ _ _ => Except.ok ()) "n" "./SAPCAR.exe"
        "home/sapuser/saprouter.sar" none none
      = { name := "home/sapuser/saprouter.sar"
          changes := [("output_dir", some (dirname "home/sapuser/saprouter.sar"))]
          result := some true
          comment := "home/sapuser/saprouter.sar" ++ " file extracted" }) :=
  ⟨by decide,
    sar_file_extracted_success "n" "./SAPCAR.exe" "home/sapuser/saprouter.sar"
      "out/dir" none (by decide)⟩
